import Mathlib

/-!
Verification development for the Async IP Connections library.

The synchronous IP layer (ip_network.c) and the asynchronous facade
(async_ip_network.c) are embedded shallowly: pure data and control flow are
translated directly from the C source; operating-system calls (socket, bind,
send, recvfrom, getaddrinfo) are parameters ("oracles") giving the outcome of
each external call; the global mutable state of the facade is threaded
explicitly through a step function over an event trace.

The thread-safe queue and map come from the Simple Multithreading submodule,
whose sources are not in the repository; those two collaborators are modelled
from the specification (sections 4.2 and 4.3) and are marked as such.
The modern (poll-based, non IP_NETWORK_LEGACY) build is modelled.
-/

/-! ## Synchronous layer: addresses and the comparison macros (ip_network.c) -/

/-- Address family constant AF_INET (value as on Linux). -/
def AF_INET : Nat := 2

/-- Address family constant AF_INET6 (value as on Linux). -/
def AF_INET6 : Nat := 10

/-- IP_MAX_MESSAGE_LENGTH from ip_network.h. -/
def IP_MAX_MESSAGE_LENGTH : Nat := 512

/-- IP_SERVER role flag. -/
def IP_SERVER : Nat := 0x01

/-- IP_CLIENT role flag. -/
def IP_CLIENT : Nat := 0x02

/-- IP_TCP transport flag. -/
def IP_TCP : Nat := 0x10

/-- IP_UDP transport flag. -/
def IP_UDP : Nat := 0x20

/-- A socket address (struct sockaddr_storage / sockaddr_in / sockaddr_in6):
the family tag, the port, the IPv4 address word (host byte order, read through
the sockaddr_in view) and the sixteen IPv6 address bytes (read through the
sockaddr_in6 view). -/
structure SockAddr where
  family : Nat
  port : Nat
  addr4 : Nat
  addr6 : List Nat
deriving DecidableEq, Repr

/-- Macro ARE_EQUAL_IPV4_ADDRESSES: family of the first address is AF_INET and
the ports are equal. The C macro compares sin_port only; it never compares
sin_addr, so two IPv4 peers that differ only in host pass this test. -/
def ARE_EQUAL_IPV4_ADDRESSES (address_1 address_2 : SockAddr) : Bool :=
  address_1.family == AF_INET && address_1.port == address_2.port

/-- Macro ARE_EQUAL_IPV6_ADDRESSES: family of the first address is AF_INET6,
the ports are equal and the sixteen address bytes are equal (memcmp). -/
def ARE_EQUAL_IPV6_ADDRESSES (address_1 address_2 : SockAddr) : Bool :=
  address_1.family == AF_INET6 && address_1.port == address_2.port &&
    address_1.addr6 == address_2.addr6

/-- Macro ARE_EQUAL_IP_ADDRESSES: the IPv4 test or the IPv6 test. -/
def ARE_EQUAL_IP_ADDRESSES (address_1 address_2 : SockAddr) : Bool :=
  ARE_EQUAL_IPV4_ADDRESSES address_1 address_2 ||
    ARE_EQUAL_IPV6_ADDRESSES address_1 address_2

/-- Macro IS_IPV4_MULTICAST_ADDRESS: top nibble of the IPv4 address is 0xE. -/
def IS_IPV4_MULTICAST_ADDRESS (address : SockAddr) : Bool :=
  (address.addr4 &&& 0xF0000000) == 0xE0000000

/-- Macro IS_IPV6_MULTICAST_ADDRESS: first IPv6 address byte is 0xFF. -/
def IS_IPV6_MULTICAST_ADDRESS (address : SockAddr) : Bool :=
  address.addr6.headD 0 == 0xFF

/-- Macro IS_IP_MULTICAST_ADDRESS. -/
def IS_IP_MULTICAST_ADDRESS (address : SockAddr) : Bool :=
  IS_IPV4_MULTICAST_ADDRESS address || IS_IPV6_MULTICAST_ADDRESS address

/-! ## Synchronous layer: connection structures (struct _IPConnectionData)

AddConnection fills the method pointers from (transport, role); for a client
the choice of receive/send/close methods is a function of the transport alone,
and for a server the send method is SendMessageAll except for a UDP server on
a multicast address, which gets SendUDPMessage.  The method pointers are
therefore represented by the transport flag and, for servers, the
multicast-send flag; IP_IsServer (which in C compares the close pointer
against CloseTCPServer / CloseUDPServer) becomes the constructor tag. -/

/-- A client-role connection: socket descriptor, the remote (or accepted peer)
address, the message length bound and the transport. -/
structure ClientConn where
  socketFD : Nat
  addressData : SockAddr
  messageLength : Nat
  transportTCP : Bool
deriving DecidableEq, Repr

/-- A server-role connection: descriptor, bound address, message length bound,
transport, whether ref_SendMessage was overridden to SendUDPMessage (UDP
server on a multicast address), the clients count (*ref_clientsCount) and the
clients array (clientsList; a none entry is a NULL slot left by RemoveClient). -/
structure ServerConn where
  socketFD : Nat
  addressData : SockAddr
  messageLength : Nat
  transportTCP : Bool
  multicastSend : Bool
  clientsCount : Nat
  clientsList : List (Option ClientConn)
deriving DecidableEq, Repr

/-- An IPConnection, tagged by role (the role is encoded in C by which close
method pointer the connection carries). -/
inductive IPConn where
  | client : ClientConn → IPConn
  | server : ServerConn → IPConn
deriving DecidableEq, Repr

/-- The client branch of AddConnection: messageLength defaults to
IP_MAX_MESSAGE_LENGTH and the method pointers follow the transport. -/
def mkClientConn (socketFD : Nat) (address : SockAddr) (transportProtocol : Nat) : ClientConn :=
  { socketFD := socketFD
    addressData := address
    messageLength := IP_MAX_MESSAGE_LENGTH
    transportTCP := transportProtocol == IP_TCP }

/-- The server branch of AddConnection: empty clients list, zero clients
count, send method SendMessageAll unless the connection is UDP on a multicast
address (then SendUDPMessage). -/
def mkServerConn (socketFD : Nat) (address : SockAddr) (transportProtocol : Nat) : ServerConn :=
  { socketFD := socketFD
    addressData := address
    messageLength := IP_MAX_MESSAGE_LENGTH
    transportTCP := transportProtocol == IP_TCP
    multicastSend := transportProtocol == IP_UDP && IS_IP_MULTICAST_ADDRESS address
    clientsCount := 0
    clientsList := [] }

/-- AddConnection (ip_network.c): build the IPConnection structure for the
given descriptor, address, transport and role. -/
def AddConnection (socketFD : Nat) (address : SockAddr) (transportProtocol : Nat)
    (networkRole : Nat) : IPConn :=
  if networkRole == IP_SERVER then .server (mkServerConn socketFD address transportProtocol)
  else .client (mkClientConn socketFD address transportProtocol)

/-- IP_IsServer: in C, true when the close method pointer is CloseTCPServer or
CloseUDPServer; here that information is the constructor tag.  NULL gives
false. -/
def IP_IsServer : Option IPConn → Bool
  | none => false
  | some (.client _) => false
  | some (.server _) => true

/-- The messageLength field of either connection role. -/
def messageLengthOf : IPConn → Nat
  | .client c => c.messageLength
  | .server sv => sv.messageLength

/-- IP_SetMessageLength: NULL connection answers 0; otherwise the bound is set
to the requested length clamped from above to IP_MAX_MESSAGE_LENGTH and the
new bound is returned (no lower clamp exists in the source). -/
def IP_SetMessageLength (conn : Option IPConn) (messageLength : Nat) : Nat × Option IPConn :=
  match conn with
  | none => (0, none)
  | some c =>
    let newLength := if messageLength > IP_MAX_MESSAGE_LENGTH then IP_MAX_MESSAGE_LENGTH
                     else messageLength
    match c with
    | .client cc => (newLength, some (.client { cc with messageLength := newLength }))
    | .server sv => (newLength, some (.server { sv with messageLength := newLength }))

/-! ## Synchronous layer: sending

An external send/sendto call is an oracle `env : Nat → Bool` giving, per
socket descriptor, whether the system call succeeds.  A send result is the
returned int paired with the list of byte counts that actually went out on
the wire (both SendTCPMessage and SendUDPMessage write exactly
connection->messageLength bytes when the system call succeeds, and nothing
when it fails). -/

/-- SendTCPMessage: send messageLength bytes on the socket; -1 on error. -/
def SendTCPMessage (env : Nat → Bool) (c : ClientConn) : Int × List Nat :=
  if env c.socketFD then (0, [c.messageLength]) else (-1, [])

/-- SendUDPMessage: sendto messageLength bytes to the stored address; -1 on
error.  Used by UDP clients and by UDP servers on a multicast address. -/
def SendUDPMessage (env : Nat → Bool) (socketFD : Nat) (messageLength : Nat) : Int × List Nat :=
  if env socketFD then (0, [messageLength]) else (-1, [])

/-- IP_SendMessage restricted to a client connection: the length guard
(strlen(message) + 1 > messageLength answers 0 with nothing sent), then the
transport-specific send.  SendMessageAll re-enters IP_SendMessage on each
child, and every child is a client, so this is the function it calls. -/
def IP_SendMessageClient (env : Nat → Bool) (message : List Nat) (c : ClientConn) :
    Int × List Nat :=
  if message.length + 1 > c.messageLength then (0, [])
  else if c.transportTCP then SendTCPMessage env c
  else SendUDPMessage env c.socketFD c.messageLength

/-- The loop of SendMessageAll.  The C loop advances clientIndex only inside
the `clientsList[clientIndex] != NULL` branch, so a NULL slot below
clientsCount makes it spin forever; the loop is therefore given fuel, and
`none` means the fuel ran out (the C code has not returned).  Out-of-range
indices read as NULL slots.  The int returned by each child send is
discarded; the wire output is collected. -/
def sendMessageAllLoop (env : Nat → Bool) (message : List Nat)
    (clients : List (Option ClientConn)) (count : Nat) (i : Nat) :
    Nat → Option (Int × List Nat)
  | 0 => none
  | fuel + 1 =>
    if i < count then
      match clients.getD i none with
      | some c =>
        let w := (IP_SendMessageClient env message c).2
        match sendMessageAllLoop env message clients count (i + 1) fuel with
        | some (r, ws) => some (r, w ++ ws)
        | none => none
      | none => sendMessageAllLoop env message clients count i fuel
    else some (0, [])

/-- IP_SendMessage: the length guard, then dispatch through ref_SendMessage:
clients send directly; servers broadcast with SendMessageAll unless they are
UDP multicast servers, which use SendUDPMessage.  `none` means the call has
not returned within the given fuel (only the SendMessageAll loop can spin). -/
def IP_SendMessage (env : Nat → Bool) (fuel : Nat) (conn : IPConn) (message : List Nat) :
    Option (Int × List Nat) :=
  match conn with
  | .client c => some (IP_SendMessageClient env message c)
  | .server sv =>
    if message.length + 1 > sv.messageLength then some (0, [])
    else if sv.multicastSend then some (SendUDPMessage env sv.socketFD sv.messageLength)
    else sendMessageAllLoop env message sv.clientsList sv.clientsCount 0 fuel

/-! ## Synchronous layer: UDP receive and accept -/

/-- ReceiveUDPMessage: recvfrom with MSG_PEEK (the oracle `incoming` is the
pending datagram with its source address, or none when the call errors);
when ARE_EQUAL_IP_ADDRESSES holds between the connection address and the
source, a second recv consumes the datagram and the buffer (truncated to
messageLength) is returned; otherwise NULL, the datagram staying queued.
The boolean reports whether the datagram was consumed from the socket. -/
def ReceiveUDPMessage (conn : ClientConn) (incoming : Option (SockAddr × List Nat)) :
    Option (List Nat) × Bool :=
  match incoming with
  | none => (none, false)
  | some (src, data) =>
    if ARE_EQUAL_IP_ADDRESSES conn.addressData src then
      (some (data.take conn.messageLength), true)
    else (none, false)

/-- AddClient: scan slots 0..clientsCount-1 of clientsList for the first NULL
slot and store the client there; when there is none, store it at index
clientsCount (the C code reallocates the array to that size when needed);
then increment the clients count. -/
def AddClient (server : ServerConn) (client : ClientConn) : ServerConn :=
  let n := server.clientsCount
  let clientIndex := ((server.clientsList.take n).findIdx? (fun oc => oc.isNone)).getD n
  let newList :=
    if clientIndex < server.clientsList.length
    then server.clientsList.set clientIndex (some client)
    else server.clientsList ++ [some client]
  { server with clientsList := newList, clientsCount := n + 1 }

/-- AcceptUDPClient: peek the pending datagram (none when recvfrom errors);
scan the first clientsCount slots of the clients list and answer NULL when
ARE_EQUAL_IP_ADDRESSES matches the source against a registered client (the C
code dereferences each slot, so a NULL slot in that range would crash; the
model treats it as a non-match); otherwise materialise a pseudo-client
sharing the server descriptor and carrying the source address, add it to the
clients list, and return it together with the updated server. -/
def AcceptUDPClient (server : ServerConn) (incoming : Option (SockAddr × List Nat)) :
    Option ClientConn × ServerConn :=
  match incoming with
  | none => (none, server)
  | some (clientAddress, _buffer) =>
    if (server.clientsList.take server.clientsCount).any
        (fun oc => match oc with
          | some c => ARE_EQUAL_IP_ADDRESSES c.addressData clientAddress
          | none => false) then
      (none, server)
    else
      let client := mkClientConn server.socketFD clientAddress IP_UDP
      (some client, AddClient server client)

/-! ## Synchronous layer: opening a connection

External calls (getaddrinfo, socket, fcntl/setsockopt, bind/listen/connect)
are collapsed into an oracle recording the outcome of each stage. -/

/-- Outcomes of the external calls made by IP_OpenConnection: the address
getaddrinfo resolves (none on resolution failure), the descriptor the socket
call yields and whether it succeeds, whether SetSocketConfig succeeds, and
whether the role-and-transport specific bind/listen/connect stage succeeds. -/
structure OpenOracle where
  resolved : Option SockAddr
  socketFD : Nat
  socketOk : Bool
  configOk : Bool
  setupOk : Bool
deriving Repr

/-- LoadAddressInfo (modern, non-legacy build): a NULL host is rejected
immediately unless the role is IP_SERVER, in which case getaddrinfo runs with
passive IPv6 hints; with a host string getaddrinfo runs on it.  Both
getaddrinfo outcomes are the oracle field `resolved`. -/
def LoadAddressInfo (host : Option String) (networkRole : Nat)
    (resolved : Option SockAddr) : Option SockAddr :=
  match host with
  | none => if networkRole == IP_SERVER then resolved else none
  | some _ => resolved

/-- CreateSocket: a transport other than IP_TCP or IP_UDP yields
INVALID_SOCKET, as does failure of the socket call. -/
def CreateSocket (protocol : Nat) (o : OpenOracle) : Option Nat :=
  if protocol == IP_TCP || protocol == IP_UDP then
    if o.socketOk then some o.socketFD else none
  else none

/-- IP_OpenConnection: reject a port below 49152 (the Dynamic/Private range
check); resolve the address; create and configure the socket; switch on the
exact connection type, running the matching bind/listen/connect stage (any
other type byte hits the default branch and fails); finally build the
connection structure with AddConnection. -/
def IP_OpenConnection (connectionType : Nat) (host : Option String) (port : Nat)
    (o : OpenOracle) : Option IPConn :=
  if port < 49152 then none
  else
    match LoadAddressInfo host (connectionType &&& 0x0F) o.resolved with
    | none => none
    | some address =>
      match CreateSocket (connectionType &&& 0xF0) o with
      | none => none
      | some socketFD =>
        if !o.configOk then none
        else if connectionType == (IP_TCP ||| IP_SERVER) then
          if o.setupOk then some (AddConnection socketFD address IP_TCP IP_SERVER) else none
        else if connectionType == (IP_UDP ||| IP_SERVER) then
          if o.setupOk then some (AddConnection socketFD address IP_UDP IP_SERVER) else none
        else if connectionType == (IP_TCP ||| IP_CLIENT) then
          if o.setupOk then some (AddConnection socketFD address IP_TCP IP_CLIENT) else none
        else if connectionType == (IP_UDP ||| IP_CLIENT) then
          if o.setupOk then some (AddConnection socketFD address IP_UDP IP_CLIENT) else none
        else none

/-! ## Asynchronous facade (async_ip_network.c)

The facade keeps one global thread-safe map from opaque identifier to
per-connection data (two queues plus the base connection), two worker thread
handles and a running flag.  The map and queues come from the Simple
Multithreading submodule, which is not part of this repository; they are
modelled from the specification below.  The global state is threaded
explicitly, and the two worker threads appear as the two running booleans
plus the per-iteration bodies ReadToQueue / WriteFromQueue, which the trace
machine may fire at any time while the flags are up. -/

/-- QUEUE_MAX_ITEMS from async_ip_network.c. -/
def QUEUE_MAX_ITEMS : Nat := 10

/-- IP_CONNECTION_INVALID_ID is -1 cast to unsigned long (LP64). -/
def IP_CONNECTION_INVALID_ID : Nat := 2 ^ 64 - 1

/-- One slot of an asynchronous queue: either an opaque client identifier
(what a server connection's read queue carries) or message bytes. -/
inductive QItem where
  | clientId : Nat → QItem
  | msg : List Nat → QItem
deriving DecidableEq, Repr

/-- The AsyncIPConnectionData wrapper: whether the base connection is a server
(IP_IsServer of the base connection, fixed at creation since the role is
immutable), the read queue and the write queue.  Queue capacity is
QUEUE_MAX_ITEMS. -/
structure AsyncConnState where
  isServer : Bool
  readQueue : List QItem
  writeQueue : List QItem
deriving DecidableEq, Repr

/-- Modelled from the spec: the thread-safe map (thread_safe_maps.c of the
Simple Multithreading submodule, not under src) is an integer-keyed table
whose SetItem assigns monotonically increasing opaque identifiers; it is kept
as an association list in insertion order.  Lookup of an identifier. -/
def tsmLookup : List (Nat × AsyncConnState) → Nat → Option AsyncConnState
  | [], _ => none
  | e :: rest, id => if e.1 = id then some e.2 else tsmLookup rest id

/-- Modelled from the spec: in-place mutation of the entry held under an
identifier (AcquireItem hands out a pointer into the map; writing through it
is this update). -/
def tsmUpdate : List (Nat × AsyncConnState) → Nat → AsyncConnState →
    List (Nat × AsyncConnState)
  | [], _, _ => []
  | e :: rest, id, v => if e.1 = id then (e.1, v) :: rest else e :: tsmUpdate rest id v

/-- Modelled from the spec: TSM_RemoveItem deletes the entry of an
identifier. -/
def tsmRemove : List (Nat × AsyncConnState) → Nat → List (Nat × AsyncConnState)
  | [], _ => []
  | e :: rest, id => if e.1 = id then tsmRemove rest id else e :: tsmRemove rest id

/-- Modelled from the spec: TSQ_Enqueue in TSQUEUE_NOWAIT mode on a bounded
queue; on a full queue the oldest item is dropped so the fresh one fits
(thread_safe_queues.c is not under src; capacity behaviour from spec 4.2). -/
def tsqEnqueueNoWait (capacity : Nat) (q : List QItem) (item : QItem) : List QItem :=
  if q.length ≥ capacity then q.drop 1 ++ [item] else q ++ [item]

/-- The module-level state of async_ip_network.c: globalConnectionsList
(none models the NULL pointer before creation and after discard), the next
identifier the map will assign (modelled from the spec: monotonic, reset when
a fresh map is created), the two worker thread handles as running flags
(Thread_Start / Thread_WaitExit of the missing threads.c are modelled as
setting and clearing them), and the static counter inside
AsyncIP_GetActivesNumber, which in C persists across calls. -/
structure FacadeState where
  registry : Option (List (Nat × AsyncConnState))
  nextId : Nat
  readRunning : Bool
  writeRunning : Bool
  activesCounter : Nat
deriving DecidableEq, Repr

/-- The state before any call: no map, no workers, zeroed static counter. -/
def initState : FacadeState :=
  { registry := none, nextId := 0, readRunning := false, writeRunning := false
    activesCounter := 0 }

/-- AddAsyncConnection: when globalConnectionsList is NULL, create the map and
start both worker threads; then create the wrapper with empty queues, insert
it, and return the assigned identifier. -/
def AddAsyncConnection (s : FacadeState) (isServer : Bool) : Nat × FacadeState :=
  match s.registry with
  | none =>
    (0,
      { registry := some [(0, ⟨isServer, [], []⟩)]
        nextId := 1
        readRunning := true
        writeRunning := true
        activesCounter := s.activesCounter })
  | some entries =>
    (s.nextId,
      { s with
        registry := some (entries ++ [(s.nextId, ⟨isServer, [], []⟩)])
        nextId := s.nextId + 1 })

/-- AsyncIP_OpenConnection: open the synchronous connection; on failure
return IP_CONNECTION_INVALID_ID leaving the state alone; on success wrap and
register it. -/
def AsyncIP_OpenConnection (s : FacadeState) (connectionType : Nat) (host : Option String)
    (port : Nat) (o : OpenOracle) : Nat × FacadeState :=
  match IP_OpenConnection connectionType host port o with
  | none => (IP_CONNECTION_INVALID_ID, s)
  | some base => AddAsyncConnection s (IP_IsServer (some base))

/-- AsyncIP_CloseConnection: unknown identifiers are ignored; otherwise the
base connection is closed, both queues are discarded and the entry removed;
when the map becomes empty the running flag is cleared, both workers are
joined (bounded 5 s wait) and the map is discarded (set back to NULL). -/
def AsyncIP_CloseConnection (s : FacadeState) (connectionID : Nat) : FacadeState :=
  match s.registry with
  | none => s
  | some entries =>
    match tsmLookup entries connectionID with
    | none => s
    | some _ =>
      if (tsmRemove entries connectionID).length = 0 then
        { s with registry := none, readRunning := false, writeRunning := false }
      else { s with registry := some (tsmRemove entries connectionID) }

/-- AsyncIP_GetActivesNumber: the counter is a C `static` local, so it starts
from its value at the end of the previous call; the loop walks indices
0..count-1 of the map (TSM_GetItem by key) incrementing the counter for each
present entry; the counter is returned and persists.  TSM_GetItemsCount of a
NULL map is taken as 0. -/
def AsyncIP_GetActivesNumber (s : FacadeState) : Nat × FacadeState :=
  let size := match s.registry with
    | none => 0
    | some entries => entries.length
  let present := (List.range size).countP
    (fun i => match s.registry with
      | none => false
      | some entries => (tsmLookup entries i).isSome)
  let c := s.activesCounter + present
  (c, { s with activesCounter := c })

/-- AsyncIP_WriteMessage: false when the identifier is unknown; otherwise a
full write queue is reported on stderr and the message is enqueued in
TSQUEUE_NOWAIT mode regardless; true is returned. -/
def AsyncIP_WriteMessage (s : FacadeState) (connectionID : Nat) (message : List Nat) :
    Bool × FacadeState :=
  match s.registry with
  | none => (false, s)
  | some entries =>
    match tsmLookup entries connectionID with
    | none => (false, s)
    | some conn =>
      (true, { s with registry := some (tsmUpdate entries connectionID
        { conn with
          writeQueue := tsqEnqueueNoWait QUEUE_MAX_ITEMS conn.writeQueue (.msg message) }) })

/-- AsyncIP_ReadMessage: NULL on an unknown identifier; a server connection
logs a diagnostic and yields NULL; a client with an empty read queue yields
NULL; otherwise the oldest item is dequeued into the static buffer and
returned. -/
def AsyncIP_ReadMessage (s : FacadeState) (clientID : Nat) : Option QItem × FacadeState :=
  match s.registry with
  | none => (none, s)
  | some entries =>
    match tsmLookup entries clientID with
    | none => (none, s)
    | some conn =>
      if conn.isServer then (none, s)
      else
        match conn.readQueue with
        | [] => (none, s)
        | first :: rest =>
          (some first,
           { s with registry := some (tsmUpdate entries clientID { conn with readQueue := rest }) })

/-- AsyncIP_GetClient: IP_CONNECTION_INVALID_ID on an unknown identifier, on
a client connection (diagnostic logged) and on an empty read queue; otherwise
the oldest queue slot is dequeued and its bytes are read back as an unsigned
long (a slot that held message bytes would be reinterpreted; the reader only
ever enqueues identifiers on server queues). -/
def AsyncIP_GetClient (s : FacadeState) (serverID : Nat) : Nat × FacadeState :=
  match s.registry with
  | none => (IP_CONNECTION_INVALID_ID, s)
  | some entries =>
    match tsmLookup entries serverID with
    | none => (IP_CONNECTION_INVALID_ID, s)
    | some conn =>
      if conn.isServer then
        match conn.readQueue with
        | [] => (IP_CONNECTION_INVALID_ID, s)
        | first :: rest =>
          ((match first with | .clientId cid => cid | .msg _ => 0),
           { s with registry := some (tsmUpdate entries serverID { conn with readQueue := rest }) })
      else (IP_CONNECTION_INVALID_ID, s)

/-- ReadToQueue, the reader worker body for one identifier: skip unknown
identifiers and full read queues; when the descriptor is readable
(`dataAvailable`), a server accepts (`acceptOk` collapses IP_AcceptClient and
the IP_GetAddress guard succeeding), registers the new client connection via
AddAsyncConnection after releasing the entry, and enqueues the new identifier
on its own read queue; a client receives (`received` is the message
IP_ReceiveMessage returns, none on NULL) and enqueues the bytes. -/
def ReadToQueue (s : FacadeState) (connectionID : Nat) (dataAvailable : Bool)
    (acceptOk : Bool) (received : Option (List Nat)) : FacadeState :=
  match s.registry with
  | none => s
  | some entries =>
    match tsmLookup entries connectionID with
    | none => s
    | some conn =>
      if conn.readQueue.length ≥ QUEUE_MAX_ITEMS then s
      else if dataAvailable then
        if conn.isServer then
          if acceptOk then
            match AddAsyncConnection s false with
            | (newClientID, s') =>
              match s'.registry with
              | none => s'
              | some entries' =>
                match tsmLookup entries' connectionID with
                | none => s'
                | some conn2 =>
                  { s' with registry := some (tsmUpdate entries' connectionID
                      { conn2 with readQueue := conn2.readQueue ++ [QItem.clientId newClientID] }) }
          else s
        else
          match received with
          | none => s
          | some m =>
            { s with registry := some (tsmUpdate entries connectionID
                { conn with readQueue := conn.readQueue ++ [QItem.msg m] }) }
      else s

/-- WriteFromQueue, the writer worker body for one identifier: skip unknown
identifiers and empty write queues; otherwise dequeue the oldest message and
send it through IP_SendMessage, whose int result is `sendResult`; a result of
-1 makes the writer remove the entry from the registry - with no check
whether the map became empty and no worker shutdown. -/
def WriteFromQueue (s : FacadeState) (connectionID : Nat) (sendResult : Int) : FacadeState :=
  match s.registry with
  | none => s
  | some entries =>
    match tsmLookup entries connectionID with
    | none => s
    | some conn =>
      match conn.writeQueue with
      | [] => s
      | _ :: rest =>
        if sendResult == -1 then
          { s with registry := some (tsmRemove
              (tsmUpdate entries connectionID { conn with writeQueue := rest }) connectionID) }
        else
          { s with
            registry := some (tsmUpdate entries connectionID { conn with writeQueue := rest }) }

/-- Whether an identifier is currently registered. -/
def registryHas (s : FacadeState) (id : Nat) : Bool :=
  match s.registry with
  | none => false
  | some entries => (tsmLookup entries id).isSome

/-- Lookup of an identifier across the optional map. -/
def registryLookup (s : FacadeState) (id : Nat) : Option AsyncConnState :=
  match s.registry with
  | none => none
  | some entries => tsmLookup entries id

/-! ## The observable event trace

Every public operation and each worker iteration body is an event; a state is
observable when it is reached by a trace of events from the initial state.
Operations that touch neither the registry, nor the queues, nor the worker
flags (AsyncIP_GetAddress, AsyncIP_GetClientsNumber, AsyncIP_SetMessageLength,
which delegate to the synchronous layer) are omitted: they cannot affect the
facade invariants stated below. -/

/-- One observable event: a public call or one worker iteration on one
identifier, with the outcomes of the external calls it makes. -/
inductive FEvent where
  | openEvt (ok : Bool) (isServer : Bool)
  | close (id : Nat)
  | write (id : Nat) (message : List Nat)
  | read (id : Nat)
  | getClient (id : Nat)
  | getActives
  | readStep (id : Nat) (dataAvailable : Bool) (acceptOk : Bool) (received : Option (List Nat))
  | writeStep (id : Nat) (sendResult : Int)

/-- The state transition of one event (outputs discarded). An open event
carries whether IP_OpenConnection succeeded and the role of the new base
connection. -/
def step (s : FacadeState) (e : FEvent) : FacadeState :=
  match e with
  | .openEvt ok isServer => if ok then (AddAsyncConnection s isServer).2 else s
  | .close id => AsyncIP_CloseConnection s id
  | .write id m => (AsyncIP_WriteMessage s id m).2
  | .read id => (AsyncIP_ReadMessage s id).2
  | .getClient id => (AsyncIP_GetClient s id).2
  | .getActives => (AsyncIP_GetActivesNumber s).2
  | .readStep id avail acceptOk received => ReadToQueue s id avail acceptOk received
  | .writeStep id sendResult => WriteFromQueue s id sendResult

/-- Run a trace of events from the initial state. -/
def run (tr : List FEvent) : FacadeState := tr.foldl step initState

/-! ## Helper lemmas about the map model -/

theorem tsmLookup_all {p : AsyncConnState → Bool} :
    ∀ {entries : List (Nat × AsyncConnState)} {id : Nat} {c : AsyncConnState},
      entries.all (fun e => p e.2) = true → tsmLookup entries id = some c → p c = true := by
  intro entries
  induction entries with
  | nil => intro id c _ hl; simp [tsmLookup] at hl
  | cons e rest ih =>
    intro id c hall hl
    simp only [List.all_cons, Bool.and_eq_true] at hall
    simp only [tsmLookup] at hl
    by_cases he : e.1 = id
    · simp [he] at hl; exact hl ▸ hall.1
    · simp [he] at hl; exact ih hall.2 hl

theorem tsmUpdate_all {p : AsyncConnState → Bool} {v : AsyncConnState} :
    ∀ {entries : List (Nat × AsyncConnState)} {id : Nat},
      entries.all (fun e => p e.2) = true → p v = true →
      (tsmUpdate entries id v).all (fun e => p e.2) = true := by
  intro entries
  induction entries with
  | nil => intro id _ _; rfl
  | cons e rest ih =>
    intro id hall hv
    rw [List.all_cons, Bool.and_eq_true] at hall
    show (if e.1 = id then (e.1, v) :: rest else e :: tsmUpdate rest id v).all
        (fun e => p e.2) = true
    by_cases he : e.1 = id
    · rw [if_pos he, List.all_cons, Bool.and_eq_true]
      exact ⟨hv, hall.2⟩
    · rw [if_neg he, List.all_cons, Bool.and_eq_true]
      exact ⟨hall.1, ih hall.2 hv⟩

theorem tsmRemove_all {p : AsyncConnState → Bool} :
    ∀ {entries : List (Nat × AsyncConnState)} {id : Nat},
      entries.all (fun e => p e.2) = true →
      (tsmRemove entries id).all (fun e => p e.2) = true := by
  intro entries
  induction entries with
  | nil => intro id _; rfl
  | cons e rest ih =>
    intro id hall
    rw [List.all_cons, Bool.and_eq_true] at hall
    show (if e.1 = id then tsmRemove rest id else e :: tsmRemove rest id).all
        (fun e => p e.2) = true
    by_cases he : e.1 = id
    · rw [if_pos he]; exact ih hall.2
    · rw [if_neg he, List.all_cons, Bool.and_eq_true]
      exact ⟨hall.1, ih hall.2⟩

theorem tsmLookup_append_left {entries l : List (Nat × AsyncConnState)} {id : Nat}
    {c : AsyncConnState} (h : tsmLookup entries id = some c) :
    tsmLookup (entries ++ l) id = some c := by
  induction entries with
  | nil => simp [tsmLookup] at h
  | cons e rest ih =>
    simp only [tsmLookup] at h ⊢
    by_cases he : e.1 = id
    · simpa [he] using h
    · simp only [he, if_false] at h ⊢
      exact ih h

theorem tsmLookup_update_isSome {v : AsyncConnState} :
    ∀ {entries : List (Nat × AsyncConnState)} {id j : Nat},
      (tsmLookup (tsmUpdate entries id v) j).isSome = (tsmLookup entries j).isSome := by
  intro entries
  induction entries with
  | nil => intro id j; rfl
  | cons e rest ih =>
    intro id j
    show (tsmLookup (if e.1 = id then (e.1, v) :: rest else e :: tsmUpdate rest id v) j).isSome
      = (tsmLookup (e :: rest) j).isSome
    by_cases he : e.1 = id
    · rw [if_pos he]
      show (if e.1 = j then some v else tsmLookup rest j).isSome
        = (if e.1 = j then some e.2 else tsmLookup rest j).isSome
      by_cases hj : e.1 = j
      · rw [if_pos hj, if_pos hj]; rfl
      · rw [if_neg hj, if_neg hj]
    · rw [if_neg he]
      show (if e.1 = j then some e.2 else tsmLookup (tsmUpdate rest id v) j).isSome
        = (if e.1 = j then some e.2 else tsmLookup rest j).isSome
      by_cases hj : e.1 = j
      · rw [if_pos hj, if_pos hj]
      · rw [if_neg hj, if_neg hj]; exact ih

/-! ## Trace induction -/

theorem foldl_invariant (P : FacadeState → Prop)
    (hstep : ∀ s e, P s → P (step s e)) :
    ∀ (tr : List FEvent) (s : FacadeState), P s → P (tr.foldl step s) := by
  intro tr
  induction tr with
  | nil => intro s hs; exact hs
  | cons e rest ih => intro s hs; exact ih (step s e) (hstep s e hs)

theorem run_invariant (P : FacadeState → Prop)
    (hinit : P initState) (hstep : ∀ s e, P s → P (step s e)) (tr : List FEvent) :
    P (run tr) :=
  foldl_invariant P hstep tr initState hinit

/-! ## Worker-thread and registry lifecycle -/

/-- Both worker handles agree and they are up exactly while
globalConnectionsList is allocated. -/
def WorkersInv (s : FacadeState) : Prop :=
  s.readRunning = s.writeRunning ∧ s.readRunning = s.registry.isSome

theorem step_workersInv (s : FacadeState) (e : FEvent) (h : WorkersInv s) :
    WorkersInv (step s e) := by
  obtain ⟨h1, h2⟩ := h
  cases e <;>
    simp only [step, AddAsyncConnection, AsyncIP_CloseConnection, AsyncIP_WriteMessage,
      AsyncIP_ReadMessage, AsyncIP_GetClient, AsyncIP_GetActivesNumber, ReadToQueue,
      WriteFromQueue] <;>
    (repeat' split) <;>
    simp_all [WorkersInv]

/-! ## Queue capacity invariant -/

/-- Both queues of one wrapper are within QUEUE_MAX_ITEMS. -/
def connBounded (c : AsyncConnState) : Bool :=
  decide (c.readQueue.length ≤ QUEUE_MAX_ITEMS) &&
    decide (c.writeQueue.length ≤ QUEUE_MAX_ITEMS)

/-- Every registered wrapper has both queues within QUEUE_MAX_ITEMS. -/
def queuesBounded (s : FacadeState) : Bool :=
  match s.registry with
  | none => true
  | some entries => entries.all (fun e => connBounded e.2)

theorem tsqEnqueueNoWait_length {cap : Nat} (hcap : 1 ≤ cap) {q : List QItem} {x : QItem}
    (h : q.length ≤ cap) : (tsqEnqueueNoWait cap q x).length ≤ cap := by
  unfold tsqEnqueueNoWait
  split
  · rename_i hge
    rw [List.length_append, List.length_drop]
    simp only [List.length_singleton]
    omega
  · rename_i hlt
    rw [List.length_append]
    simp only [List.length_singleton]
    omega


theorem step_queuesBounded (s : FacadeState) (e : FEvent) (h : queuesBounded s = true) :
    queuesBounded (step s e) = true := by
  have hall : ∀ {entries : List (Nat × AsyncConnState)}, s.registry = some entries →
      entries.all (fun e => connBounded e.2) = true := by
    intro entries hreg
    unfold queuesBounded at h
    rw [hreg] at h
    exact h
  cases e with
  | openEvt ok isServer =>
    simp only [step]
    split
    · unfold AddAsyncConnection
      split
      · simp [queuesBounded, connBounded, QUEUE_MAX_ITEMS]
      · rename_i entries hreg
        simp only [queuesBounded, List.all_append]
        rw [Bool.and_eq_true]
        exact ⟨hall hreg, by simp [connBounded, QUEUE_MAX_ITEMS]⟩
    · exact h
  | close id =>
    simp only [step]
    unfold AsyncIP_CloseConnection
    split
    · exact h
    · rename_i entries hreg
      split
      · exact h
      · rename_i c hl
        split
        · simp [queuesBounded]
        · simp only [queuesBounded]
          exact tsmRemove_all (hall hreg)
  | write id m =>
    simp only [step]
    unfold AsyncIP_WriteMessage
    split
    · exact h
    · rename_i entries hreg
      split
      · exact h
      · rename_i conn hl
        simp only [queuesBounded]
        apply tsmUpdate_all (hall hreg)
        have hc := tsmLookup_all (hall hreg) hl
        simp only [connBounded, Bool.and_eq_true, decide_eq_true_eq] at hc ⊢
        exact ⟨hc.1, tsqEnqueueNoWait_length (by norm_num [QUEUE_MAX_ITEMS]) hc.2⟩
  | read id =>
    simp only [step]
    unfold AsyncIP_ReadMessage
    split
    · exact h
    · rename_i entries hreg
      split
      · exact h
      · rename_i conn hl
        split
        · exact h
        · split
          · exact h
          · rename_i first rest hq
            simp only [queuesBounded]
            apply tsmUpdate_all (hall hreg)
            have hc := tsmLookup_all (hall hreg) hl
            simp only [connBounded, Bool.and_eq_true, decide_eq_true_eq] at hc ⊢
            have hlen : conn.readQueue.length = rest.length + 1 := by rw [hq]; rfl
            exact ⟨by omega, hc.2⟩
  | getClient id =>
    simp only [step]
    unfold AsyncIP_GetClient
    split
    · exact h
    · rename_i entries hreg
      split
      · exact h
      · rename_i conn hl
        split
        · split
          · exact h
          · rename_i first rest hq
            simp only [queuesBounded]
            apply tsmUpdate_all (hall hreg)
            have hc := tsmLookup_all (hall hreg) hl
            simp only [connBounded, Bool.and_eq_true, decide_eq_true_eq] at hc ⊢
            have hlen : conn.readQueue.length = rest.length + 1 := by rw [hq]; rfl
            exact ⟨by omega, hc.2⟩
        · exact h
  | getActives =>
    simp only [step, AsyncIP_GetActivesNumber]
    unfold queuesBounded at h ⊢
    exact h
  | readStep id avail acceptOk received =>
    simp only [step]
    unfold ReadToQueue
    split
    · exact h
    · rename_i entries hreg
      split
      · exact h
      · rename_i conn hl
        split
        · exact h
        · rename_i hfull
          split
          · split
            · split
              · have haddeq : AddAsyncConnection s false =
                    (s.nextId,
                      { s with
                        registry := some (entries ++ [(s.nextId, ⟨false, [], []⟩)])
                        nextId := s.nextId + 1 }) := by
                  unfold AddAsyncConnection
                  rw [hreg]
                rw [haddeq]
                have hc := tsmLookup_all (hall hreg) hl
                simp only [connBounded, Bool.and_eq_true, decide_eq_true_eq] at hc
                have hall2 : (entries ++ [(s.nextId, (⟨false, [], []⟩ : AsyncConnState))]).all
                    (fun e => connBounded e.2) = true := by
                  simp only [List.all_append]
                  rw [Bool.and_eq_true]
                  exact ⟨hall hreg, by simp [connBounded, QUEUE_MAX_ITEMS]⟩
                cases hl2 : tsmLookup (entries ++ [(s.nextId, (⟨false, [], []⟩ : AsyncConnState))]) id with
                | none =>
                  simp only [queuesBounded, hl2]
                  exact hall2
                | some conn2 =>
                  have hc2 : conn2 = conn := by
                    have hx := tsmLookup_append_left
                      (l := [(s.nextId, (⟨false, [], []⟩ : AsyncConnState))]) hl
                    rw [hx] at hl2
                    exact (Option.some_injective _ hl2).symm
                  simp only [queuesBounded, hl2]
                  apply tsmUpdate_all hall2
                  simp only [connBounded, Bool.and_eq_true, decide_eq_true_eq,
                    List.length_append, List.length_singleton]
                  rw [hc2]
                  refine ⟨?_, hc.2⟩
                  unfold QUEUE_MAX_ITEMS at hfull ⊢
                  omega
              · exact h
            · split
              · exact h
              · rename_i m hm
                simp only [queuesBounded]
                apply tsmUpdate_all (hall hreg)
                have hc := tsmLookup_all (hall hreg) hl
                simp only [connBounded, Bool.and_eq_true, decide_eq_true_eq,
                  List.length_append, List.length_singleton] at hc ⊢
                refine ⟨?_, hc.2⟩
                unfold QUEUE_MAX_ITEMS at hfull ⊢
                omega
          · exact h
  | writeStep id sendResult =>
    simp only [step]
    unfold WriteFromQueue
    split
    · exact h
    · rename_i entries hreg
      split
      · exact h
      · rename_i conn hl
        split
        · exact h
        · rename_i first rest hq
          have hup : (tsmUpdate entries id { conn with writeQueue := rest }).all
              (fun e => connBounded e.2) = true := by
            apply tsmUpdate_all (hall hreg)
            have hc := tsmLookup_all (hall hreg) hl
            simp only [connBounded, Bool.and_eq_true, decide_eq_true_eq] at hc ⊢
            have hlen : conn.writeQueue.length = rest.length + 1 := by rw [hq]; rfl
            exact ⟨hc.1, by omega⟩
          split
          · simp only [queuesBounded]
            exact tsmRemove_all hup
          · simp only [queuesBounded]
            exact hup

/-! ## Claim C1 -/

/-- C1 (amended): the two workers are started together by the first
AddAsyncConnection (the one that finds the registry pointer NULL) and stopped
together by the AsyncIP_CloseConnection that empties the registry; at every
observable point the two worker flags agree, and the workers are running
exactly while the registry object exists.  The unamended claim - both workers
stopped whenever the registry holds no entries - fails on the writer-eviction
path, which removes the last entry without any shutdown; see the
counterexample. -/
theorem c1_workers_iff_registry_alloc (tr : List FEvent) :
    (run tr).readRunning = (run tr).writeRunning
    ∧ (run tr).readRunning = (run tr).registry.isSome :=
  run_invariant WorkersInv ⟨rfl, rfl⟩ step_workersInv tr

/-- C1 counterexample: open one connection, queue one message on it, and let
the writer worker hit a fatal send result (-1).  The eviction empties the
registry, yet both workers are still running, refuting the claimed
alternative that an empty registry has both workers stopped. -/
theorem c1_counterexample :
    (run [FEvent.openEvt true false, FEvent.write 0 [104],
        FEvent.writeStep 0 (-1)]).registry = some []
    ∧ (run [FEvent.openEvt true false, FEvent.write 0 [104],
        FEvent.writeStep 0 (-1)]).readRunning = true
    ∧ (run [FEvent.openEvt true false, FEvent.write 0 [104],
        FEvent.writeStep 0 (-1)]).writeRunning = true := by
  decide

/-! ## Claim C2 -/

/-- C2: at every observable point, every registered connection holds at most
QUEUE_MAX_ITEMS (= 10) items in its read queue and at most QUEUE_MAX_ITEMS in
its write queue: wrappers are created with empty queues, the reader worker
skips a connection whose read queue already holds 10 items before enqueueing,
and AsyncIP_WriteMessage enqueues in NoWait mode into the bounded queue. -/
theorem c2_queue_bounds (tr : List FEvent) : queuesBounded (run tr) = true :=
  run_invariant (fun s => queuesBounded s = true) rfl step_queuesBounded tr

/-! ## Send-result lemmas shared by the send claims -/

/-- A writer pass whose send result is not -1 never changes which identifiers
are registered: it only dequeues. -/
theorem writeFromQueue_nonfatal_registryHas (s : FacadeState) (id j : Nat)
    (sendResult : Int) (hres : sendResult ≠ -1) :
    registryHas (WriteFromQueue s id sendResult) j = registryHas s j := by
  unfold WriteFromQueue
  split
  · rfl
  · rename_i entries hreg
    split
    · rfl
    · rename_i conn hl
      split
      · rfl
      · rename_i first rest hq
        split
        · rename_i hcond
          exact absurd (by exact_mod_cast eq_of_beq hcond) hres
        · simp only [registryHas, hreg]
          exact tsmLookup_update_isSome

/-- Whenever the SendMessageAll loop returns, the int it returns is 0: the
individual client send results are discarded. -/
theorem sendMessageAllLoop_result (env : Nat → Bool) (message : List Nat)
    (clients : List (Option ClientConn)) (count : Nat) :
    ∀ (fuel i : Nat) (r : Int) (w : List Nat),
      sendMessageAllLoop env message clients count i fuel = some (r, w) → r = 0 := by
  intro fuel
  induction fuel with
  | zero =>
    intro i r w hx
    exact absurd hx (by simp [sendMessageAllLoop])
  | succ fuel ih =>
    intro i r w hx
    rw [sendMessageAllLoop] at hx
    split at hx
    · split at hx
      · split at hx
        · rename_i hrec
          rw [Option.some_inj] at hx
          have hr := congrArg Prod.fst hx
          simp only at hr
          rw [← hr]
          exact ih _ _ _ hrec
        · exact absurd hx (by simp)
      · exact ih _ _ _ hx
    · rw [Option.some_inj] at hx
      have hr := congrArg Prod.fst hx
      simp only at hr
      exact hr.symm

/-! ## Claim C5 -/

/-- C5: for any connection and any message whose length plus one terminator
byte exceeds the connection's current bound, IP_SendMessage returns 0 - not
the fatal -1 - and writes nothing on the wire; and a writer pass whose send
result is 0 removes no connection from the registry. -/
theorem c5_overlength_send_dropped (env : Nat → Bool) (fuel : Nat) (conn : IPConn)
    (message : List Nat) (hlen : message.length + 1 > messageLengthOf conn) :
    IP_SendMessage env fuel conn message = some (0, [])
    ∧ ((0 : Int) = -1 → False)
    ∧ ∀ (s : FacadeState) (id j : Nat),
        registryHas (WriteFromQueue s id 0) j = registryHas s j := by
  refine ⟨?_, by decide, fun s id j => writeFromQueue_nonfatal_registryHas s id j 0 (by decide)⟩
  cases conn with
  | client c =>
    simp only [messageLengthOf] at hlen
    simp only [IP_SendMessage, IP_SendMessageClient, if_pos hlen]
  | server sv =>
    simp only [messageLengthOf] at hlen
    simp only [IP_SendMessage, if_pos hlen]

/-- Witness for c5_overlength_send_dropped: a fresh TCP client carries the
default bound 512, and a 512-byte message plus terminator exceeds it. -/
theorem c5_witness :
    IP_SendMessage (fun _ => true) 1
        (.client (mkClientConn 3 ⟨AF_INET, 49400, 5, []⟩ IP_TCP)) (List.replicate 512 104)
      = some (0, []) :=
  (c5_overlength_send_dropped (fun _ => true) 1
    (.client (mkClientConn 3 ⟨AF_INET, 49400, 5, []⟩ IP_TCP)) (List.replicate 512 104)
    (by simp only [messageLengthOf, mkClientConn, IP_MAX_MESSAGE_LENGTH,
          List.length_replicate]
        omega)).1

/-! ## Claim C10 -/

/-- C10 (amended): on a server whose send method is SendMessageAll - every TCP
server, and every UDP server not bound to a multicast address - IP_SendMessage
never answers the fatal -1: the over-length guard answers 0, and the broadcast
loop discards the individual client send results, answering 0 whenever it
returns; a writer pass carrying such a result evicts nothing.  The unamended
claim fails for UDP servers on a multicast address, whose send method is
SendUDPMessage; see the counterexample. -/
theorem c10_server_send_nonfatal (env : Nat → Bool) (fuel : Nat) (sv : ServerConn)
    (message : List Nat) (r : Int) (w : List Nat)
    (hm : sv.multicastSend = false)
    (hr : IP_SendMessage env fuel (.server sv) message = some (r, w)) :
    r = 0 ∧ ∀ (s : FacadeState) (id j : Nat),
      registryHas (WriteFromQueue s id r) j = registryHas s j := by
  have hr0 : r = 0 := by
    simp only [IP_SendMessage, hm] at hr
    split at hr
    · rw [Option.some_inj] at hr
      exact (congrArg Prod.fst hr).symm
    · exact sendMessageAllLoop_result env message sv.clientsList sv.clientsCount fuel 0 r w hr
  subst hr0
  exact ⟨rfl, fun s id j => writeFromQueue_nonfatal_registryHas s id j 0 (by decide)⟩

/-- Witness for c10_server_send_nonfatal: a plain (non-multicast) UDP server
with no clients; its broadcast loop returns immediately with 0. -/
theorem c10_witness :
    (0 : Int) = 0 ∧ ∀ (s : FacadeState) (id j : Nat),
      registryHas (WriteFromQueue s id 0) j = registryHas s j :=
  c10_server_send_nonfatal (fun _ => false) 1
    (mkServerConn 3 ⟨AF_INET, 49300, 1, []⟩ IP_UDP) [] 0 []
    (by decide) (by decide)

/-- C10 counterexample: a UDP server opened on the multicast address
224.0.0.1 has SendUDPMessage as its send method; when the sendto call fails,
IP_SendMessage on this server connection answers the fatal -1, and a writer
pass carrying that result removes the server's entry from the registry: the
send-failure eviction path is reachable for a server connection. -/
theorem c10_counterexample :
    IP_IsServer (some (AddConnection 7 ⟨AF_INET, 49300, 0xE0000001, []⟩ IP_UDP IP_SERVER)) = true
    ∧ IP_SendMessage (fun _ => false) 1
        (AddConnection 7 ⟨AF_INET, 49300, 0xE0000001, []⟩ IP_UDP IP_SERVER) [104]
        = some (-1, [])
    ∧ registryHas
        { registry := some [(0, ⟨true, [], [QItem.msg [104]]⟩)], nextId := 1,
          readRunning := true, writeRunning := true, activesCounter := 0 } 0 = true
    ∧ registryHas (WriteFromQueue
        { registry := some [(0, ⟨true, [], [QItem.msg [104]]⟩)], nextId := 1,
          readRunning := true, writeRunning := true, activesCounter := 0 } 0 (-1)) 0 = false := by
  decide

/-! ## Claim C3 -/

/-- C3 failing evaluation: a UDP client configured for the remote
10.0.0.1:49210 receives a datagram whose source is 10.0.0.2:49210 - a
different source address.  ReceiveUDPMessage consumes the datagram and
returns its bytes, because ARE_EQUAL_IPV4_ADDRESSES compares only the family
and the port; the claim requires no message and nothing consumed when the
source address differs from the configured remote. -/
theorem c3_failing_eval :
    ReceiveUDPMessage (mkClientConn 4 ⟨AF_INET, 49210, 0x0A000001, []⟩ IP_UDP)
        (some (⟨AF_INET, 49210, 0x0A000002, []⟩, [104, 105]))
      = (some [104, 105], true)
    ∧ (mkClientConn 4 ⟨AF_INET, 49210, 0x0A000001, []⟩ IP_UDP).addressData
        ≠ ⟨AF_INET, 49210, 0x0A000002, []⟩ := by
  decide

/-! ## Claim C4 -/

/-- C4 failing evaluation: a UDP server already holding one pseudo-client for
source 10.0.0.1:55555 peeks a datagram from the unseen source 10.0.0.2:55555.
AcceptUDPClient returns NULL and registers nothing, because the scan uses
ARE_EQUAL_IPV4_ADDRESSES, which matches on family and port alone; the claim
requires a datagram from an unseen source address to produce exactly one new
pseudo-client. -/
theorem c4_failing_eval :
    (AcceptUDPClient
        (AddClient (mkServerConn 5 ⟨AF_INET, 49220, 0, List.replicate 16 0⟩ IP_UDP)
          (mkClientConn 5 ⟨AF_INET, 55555, 0x0A000001, []⟩ IP_UDP))
        (some (⟨AF_INET, 55555, 0x0A000002, []⟩, [1])))
      = (none,
        AddClient (mkServerConn 5 ⟨AF_INET, 49220, 0, List.replicate 16 0⟩ IP_UDP)
          (mkClientConn 5 ⟨AF_INET, 55555, 0x0A000001, []⟩ IP_UDP))
    ∧ (∀ oc ∈ (AddClient (mkServerConn 5 ⟨AF_INET, 49220, 0, List.replicate 16 0⟩ IP_UDP)
          (mkClientConn 5 ⟨AF_INET, 55555, 0x0A000001, []⟩ IP_UDP)).clientsList,
        ∀ c, oc = some c → c.addressData ≠ ⟨AF_INET, 55555, 0x0A000002, []⟩) := by
  decide

/-! ## Claim C6 -/

/-- C6: for every type byte, host and port - a port below 49152 makes
IP_OpenConnection return NULL and the facade return IP_CONNECTION_INVALID_ID
with the state untouched; a NULL host is rejected when the role bits name a
client; a NULL host passes LoadAddressInfo for the server role (the resolved
wildcard address flows through); and for the two valid server type bytes with
the external calls succeeding, the open with a NULL host succeeds, producing
the server connection built on the resolved address. -/
theorem c6_open_validation (t : Nat) (host : Option String) (p : Nat) (o : OpenOracle)
    (s : FacadeState) :
    (p < 49152 → IP_OpenConnection t host p o = none
      ∧ AsyncIP_OpenConnection s t host p o = (IP_CONNECTION_INVALID_ID, s))
    ∧ (t &&& 0x0F = IP_CLIENT → IP_OpenConnection t none p o = none)
    ∧ LoadAddressInfo none IP_SERVER o.resolved = o.resolved
    ∧ (∀ a, 49152 ≤ p → o.resolved = some a → o.socketOk = true → o.configOk = true →
        o.setupOk = true → (t = (IP_TCP ||| IP_SERVER) ∨ t = (IP_UDP ||| IP_SERVER)) →
        IP_OpenConnection t none p o
          = some (AddConnection o.socketFD a (t &&& 0xF0) IP_SERVER)) := by
  refine ⟨?_, ?_, ?_, ?_⟩
  · intro hp
    have h1 : IP_OpenConnection t host p o = none := by
      unfold IP_OpenConnection
      rw [if_pos hp]
    refine ⟨h1, ?_⟩
    unfold AsyncIP_OpenConnection
    rw [h1]
  · intro hrole
    unfold IP_OpenConnection
    split
    · rfl
    · unfold LoadAddressInfo
      rw [hrole]
      simp [IP_CLIENT, IP_SERVER]
  · simp [LoadAddressInfo]
  · intro a hp hres hsock hconf hsetup ht
    have hnp : ¬ p < 49152 := not_lt.mpr hp
    cases ht with
    | inl h =>
      subst h
      simp [IP_OpenConnection, LoadAddressInfo, CreateSocket, hres, hsock, hconf, hsetup,
        hnp, IP_SERVER, IP_CLIENT, IP_TCP, IP_UDP,
        show (17 : Nat) &&& 15 = 1 from by decide,
        show (17 : Nat) &&& 240 = 16 from by decide]
    | inr h =>
      subst h
      simp [IP_OpenConnection, LoadAddressInfo, CreateSocket, hres, hsock, hconf, hsetup,
        hnp, IP_SERVER, IP_CLIENT, IP_TCP, IP_UDP,
        show (33 : Nat) &&& 15 = 1 from by decide,
        show (33 : Nat) &&& 240 = 32 from by decide]

/-- Witness for c6_open_validation: the port guard at TCP client type and
port 100; the NULL-host rejection at UDP client type and port 50000; the
NULL-host server success at TCP server type and port 50000. -/
theorem c6_witness :
    IP_OpenConnection 0x12 (some "a") 100
        ⟨some ⟨AF_INET, 100, 1, []⟩, 3, true, true, true⟩ = none
    ∧ IP_OpenConnection 0x22 none 50000
        ⟨some ⟨AF_INET, 50000, 1, []⟩, 3, true, true, true⟩ = none
    ∧ IP_OpenConnection 0x11 none 50000
        ⟨some ⟨AF_INET6, 50000, 0, List.replicate 16 0⟩, 3, true, true, true⟩
      = some (AddConnection 3 ⟨AF_INET6, 50000, 0, List.replicate 16 0⟩ (0x11 &&& 0xF0)
          IP_SERVER) :=
  ⟨((c6_open_validation 0x12 (some "a") 100
      ⟨some ⟨AF_INET, 100, 1, []⟩, 3, true, true, true⟩ initState).1 (by decide)).1,
   (c6_open_validation 0x22 none 50000
      ⟨some ⟨AF_INET, 50000, 1, []⟩, 3, true, true, true⟩ initState).2.1 (by decide),
   (c6_open_validation 0x11 none 50000
      ⟨some ⟨AF_INET6, 50000, 0, List.replicate 16 0⟩, 3, true, true, true⟩ initState).2.2.2
     ⟨AF_INET6, 50000, 0, List.replicate 16 0⟩ (by decide) rfl rfl rfl rfl (Or.inl rfl)⟩

/-! ## Claim C7 -/

/-- C7 failing evaluation: open one connection, call GetActivesNumber (it
answers 1 and leaves its static counter at 1), close the connection (the
registry is emptied and discarded), then call GetActivesNumber again: it
answers 1 instead of the claimed 0, because the counter is a C static local
and keeps its value across calls instead of restarting from zero. -/
theorem c7_failing_eval :
    (AsyncIP_GetActivesNumber (run [FEvent.openEvt true false])).1 = 1
    ∧ (AsyncIP_CloseConnection
        (AsyncIP_GetActivesNumber (run [FEvent.openEvt true false])).2 0).registry = none
    ∧ (AsyncIP_GetActivesNumber (AsyncIP_CloseConnection
        (AsyncIP_GetActivesNumber (run [FEvent.openEvt true false])).2 0)).1 = 1 := by
  decide

/-! ## Claim C8 -/

/-- The message length bounds one connection can reach through the synchronous
layer: IP_MAX_MESSAGE_LENGTH at creation (AddConnection), and each
IP_SetMessageLength call replaces the bound by the clamped request. -/
inductive BoundReachable : Nat → Prop where
  | created : BoundReachable IP_MAX_MESSAGE_LENGTH
  | set (b L : Nat) : BoundReachable b →
      BoundReachable (if L > IP_MAX_MESSAGE_LENGTH then IP_MAX_MESSAGE_LENGTH else L)

/-- C8 counterexample: IP_SetMessageLength with requested length 0 sets the
bound to 0 and returns 0, leaving the claimed range 1..512. -/
theorem c8_counterexample :
    (IP_SetMessageLength
        (some (AddConnection 3 ⟨AF_INET, 49400, 1, []⟩ IP_TCP IP_CLIENT)) 0).1 = 0
    ∧ ((IP_SetMessageLength
        (some (AddConnection 3 ⟨AF_INET, 49400, 1, []⟩ IP_TCP IP_CLIENT)) 0).2.map
          messageLengthOf) = some 0
    ∧ ¬ (1 ≤ 0) := by
  decide

/-- C8 (amended): every reachable message length bound is at most
IP_MAX_MESSAGE_LENGTH = 512 (but not necessarily at least 1: a request of 0
yields bound 0); the bound at creation is 512; and IP_SetMessageLength sets
the bound to min of the request and 512 and returns that value. -/
theorem c8_bound_clamped :
    (∀ b, BoundReachable b → b ≤ IP_MAX_MESSAGE_LENGTH)
    ∧ (∀ fd a tp role, messageLengthOf (AddConnection fd a tp role) = IP_MAX_MESSAGE_LENGTH)
    ∧ (∀ c L, (IP_SetMessageLength (some c) L).1 = min L IP_MAX_MESSAGE_LENGTH
        ∧ ((IP_SetMessageLength (some c) L).2.map messageLengthOf)
            = some (min L IP_MAX_MESSAGE_LENGTH)) := by
  have hmin : ∀ L : Nat,
      (if L > IP_MAX_MESSAGE_LENGTH then IP_MAX_MESSAGE_LENGTH else L)
        = min L IP_MAX_MESSAGE_LENGTH := by
    intro L
    split <;> omega
  refine ⟨?_, ?_, ?_⟩
  · intro b hb
    induction hb with
    | created => exact le_refl _
    | set b L hb ih =>
      rw [hmin]
      omega
  · intro fd a tp role
    unfold AddConnection
    split
    · rfl
    · rfl
  · intro c L
    cases c with
    | client cc =>
      simp [IP_SetMessageLength, messageLengthOf, Option.map, hmin]
    | server sv =>
      simp [IP_SetMessageLength, messageLengthOf, Option.map, hmin]

/-- Witness for c8_bound_clamped: the creation bound 512 is reachable and
within the maximum, and a request of 700 on a fresh TCP client clamps to
min 700 512. -/
theorem c8_witness :
    IP_MAX_MESSAGE_LENGTH ≤ IP_MAX_MESSAGE_LENGTH
    ∧ (IP_SetMessageLength
        (some (.client (mkClientConn 3 ⟨AF_INET, 49400, 1, []⟩ IP_TCP))) 700).1
      = min 700 IP_MAX_MESSAGE_LENGTH :=
  ⟨c8_bound_clamped.1 IP_MAX_MESSAGE_LENGTH BoundReachable.created,
   (c8_bound_clamped.2.2 (.client (mkClientConn 3 ⟨AF_INET, 49400, 1, []⟩ IP_TCP)) 700).1⟩

/-! ## Claim C9 -/

/-- C9: AsyncIP_ReadMessage dequeues and returns the oldest read-queue item
exactly when the identifier names a registered client connection with a
non-empty read queue; in every other case - unknown identifier, server
connection (a diagnostic is logged), empty read queue - it returns NULL and
leaves the state unchanged. -/
theorem c9_read_message_spec (s : FacadeState) (id : Nat) :
    (registryLookup s id = none → AsyncIP_ReadMessage s id = (none, s))
    ∧ (∀ conn, registryLookup s id = some conn → conn.isServer = true →
        AsyncIP_ReadMessage s id = (none, s))
    ∧ (∀ conn, registryLookup s id = some conn → conn.isServer = false →
        conn.readQueue = [] → AsyncIP_ReadMessage s id = (none, s))
    ∧ (∀ conn first rest entries, s.registry = some entries →
        tsmLookup entries id = some conn → conn.isServer = false →
        conn.readQueue = first :: rest →
        AsyncIP_ReadMessage s id = (some first,
          { s with
            registry := some (tsmUpdate entries id { conn with readQueue := rest }) })) := by
  have hlookup : ∀ {entries : List (Nat × AsyncConnState)}, s.registry = some entries →
      registryLookup s id = tsmLookup entries id := by
    intro entries hreg
    unfold registryLookup
    rw [hreg]
  refine ⟨?_, ?_, ?_, ?_⟩
  · intro hnone
    unfold AsyncIP_ReadMessage
    split
    · rfl
    · rename_i entries hreg
      rw [hlookup hreg] at hnone
      simp only [hnone]
  · intro conn hsome hsrv
    unfold AsyncIP_ReadMessage
    split
    · rfl
    · rename_i entries hreg
      rw [hlookup hreg] at hsome
      simp [hsome, hsrv]
  · intro conn hsome hsrv hq
    unfold AsyncIP_ReadMessage
    split
    · rfl
    · rename_i entries hreg
      rw [hlookup hreg] at hsome
      simp [hsome, hsrv, hq]
  · intro conn first rest entries hreg hl hsrv hq
    unfold AsyncIP_ReadMessage
    split
    · rename_i hregn
      rw [hregn] at hreg
      exact absurd hreg (by simp)
    · rename_i entries2 hreg2
      rw [hreg] at hreg2
      have he : entries2 = entries := (Option.some_inj.mp hreg2).symm
      subst he
      simp [hl, hsrv, hq]

/-- Witness for c9_read_message_spec: a registry with one client wrapper
whose read queue holds one message, read at its identifier and at an unknown
identifier. -/
theorem c9_witness :
    AsyncIP_ReadMessage
        { registry := some [(0, ⟨false, [QItem.msg [7]], []⟩)], nextId := 1,
          readRunning := true, writeRunning := true, activesCounter := 0 } 0
      = (some (QItem.msg [7]),
        { registry := some (tsmUpdate [(0, ⟨false, [QItem.msg [7]], []⟩)] 0
            { (⟨false, [QItem.msg [7]], []⟩ : AsyncConnState) with readQueue := [] }),
          nextId := 1, readRunning := true, writeRunning := true, activesCounter := 0 })
    ∧ AsyncIP_ReadMessage
        { registry := some [(0, ⟨false, [QItem.msg [7]], []⟩)], nextId := 1,
          readRunning := true, writeRunning := true, activesCounter := 0 } 5
      = (none,
        { registry := some [(0, ⟨false, [QItem.msg [7]], []⟩)], nextId := 1,
          readRunning := true, writeRunning := true, activesCounter := 0 }) :=
  ⟨(c9_read_message_spec
      { registry := some [(0, ⟨false, [QItem.msg [7]], []⟩)], nextId := 1,
        readRunning := true, writeRunning := true, activesCounter := 0 } 0).2.2.2
      ⟨false, [QItem.msg [7]], []⟩ (QItem.msg [7]) [] [(0, ⟨false, [QItem.msg [7]], []⟩)]
      rfl rfl rfl rfl,
   (c9_read_message_spec
      { registry := some [(0, ⟨false, [QItem.msg [7]], []⟩)], nextId := 1,
        readRunning := true, writeRunning := true, activesCounter := 0 } 5).1 rfl⟩
